import Mathlib

/-!
Verification of the image-similarity comparator in `src/compare.py`.

The script decodes two images (PIL, converted to RGB), resizes the first to
the second's dimensions when they differ, casts the pixel arrays to signed
integers, takes per-channel absolute differences, counts pixels whose three
channel differences are all at most 5, and prints the match percentage with
two decimal places.

Pixels and images are embedded as plain structures; pixel data is the
row-major flattening of `np.array(img)` (shape height x width x 3).  Image
decoding and PIL's `resize` live outside the repository, so loading is
embedded as an `Except` value and resampling as an explicit function
parameter.  Printed lines are embedded as an inductive type of output events
together with a renderer to the exact strings the script prints; the float
percentage is embedded as a rational and the `"%.2f"` formatting as rounding
to hundredths (ties to even, as Python rounds) followed by digit printing.
-/

namespace Compare

/-- An RGB pixel: the three 8-bit channel values after `convert('RGB')`. -/
structure Pixel where
  r : Nat
  g : Nat
  b : Nat
deriving DecidableEq

/-- A decoded raster image: width, height and row-major pixel data. -/
structure Image where
  width : Nat
  height : Nat
  pixels : List Pixel
deriving DecidableEq

/-- A decoded image carries exactly one pixel per grid position. -/
def Image.wf (img : Image) : Prop :=
  img.pixels.length = img.width * img.height

/-- A decoded image has 8-bit channels and at least one pixel. -/
def Image.valid (img : Image) : Prop :=
  img.wf ∧ 0 < img.width * img.height ∧
    ∀ p ∈ img.pixels, p.r ≤ 255 ∧ p.g ≤ 255 ∧ p.b ≤ 255

/-- One channel of `np.abs(arr1 - arr2)` after `astype(int)`: the
subtraction happens on signed integers, then the absolute value. -/
def channelDiff (a b : Nat) : Nat := ((a : Int) - (b : Int)).natAbs

/-- The fixed margin of error from `diff <= 5`. -/
def tolerance : Nat := 5

/-- `np.all(diff <= 5, axis=2)` at a single pixel position. -/
def pixelClose (p q : Pixel) : Bool :=
  decide (channelDiff p.r q.r ≤ tolerance) &&
  decide (channelDiff p.g q.g ≤ tolerance) &&
  decide (channelDiff p.b q.b ≤ tolerance)

/-- The `close_pixels` boolean array, flattened. -/
def closePixels (xs ys : List Pixel) : List Bool :=
  List.zipWith pixelClose xs ys

/-- `match_pixels = np.sum(close_pixels)`. -/
def matchPixels (xs ys : List Pixel) : Nat :=
  (closePixels xs ys).count true

/-- `total_pixels = close_pixels.size`. -/
def totalPixels (xs ys : List Pixel) : Nat :=
  (closePixels xs ys).length

/-- `match_percentage = (match_pixels / total_pixels) * 100.0`. -/
def matchPercentage (xs ys : List Pixel) : ℚ :=
  (matchPixels xs ys : ℚ) / (totalPixels xs ys : ℚ) * 100

/-- Round a rational to the nearest integer, ties to even, computed on the
reduced numerator and denominator (`f` is the floor, `s` compares the
fractional remainder against one half). -/
def roundHalfEven (q : ℚ) : Int :=
  let a : Int := q.num
  let b : Int := (q.den : Int)
  let f : Int := Int.fdiv a b
  let s : Int := 2 * (a - f * b)
  if s < b then f
  else if b < s then f + 1
  else if f % 2 = 0 then f else f + 1

/-- Python's `f"{x:.2f}"` on the script's (always nonnegative) match
percentage: round to hundredths, ties to even as float formatting rounds,
and print with exactly two digits after the decimal point. -/
def formatFixed2 (q : ℚ) : String :=
  let m : Nat := (roundHalfEven (q * 100)).toNat
  toString (m / 100) ++ "." ++
    String.mk [Nat.digitChar (m / 10 % 10), Nat.digitChar (m % 10)]

/-- The lines `compare_images` can print, one constructor per `print`. -/
inductive OutLine where
  | errorLoading (msg : String)
  | sizesDiffer (w1 h1 w2 h2 : Nat)
  | matchResult (pct : String)
deriving DecidableEq

/-- The exact text of each printed line. -/
def renderLine : OutLine → String
  | .errorLoading msg => "Error loading images: " ++ msg
  | .sizesDiffer w1 h1 w2 h2 =>
      "Sizes differ: (" ++ toString w1 ++ ", " ++ toString h1 ++ ") vs (" ++
        toString w2 ++ ", " ++ toString h2 ++ "). Resizing img1 to match img2."
  | .matchResult p => "Match: " ++ p ++ "%"

/-- The first image as it enters the difference computation: unchanged when
the sizes agree, otherwise `img1.resize(img2.size)`. -/
def normalizedFirst (resize : Image → Nat → Nat → Image)
    (img1 img2 : Image) : Image :=
  if img1.width = img2.width ∧ img1.height = img2.height then img1
  else resize img1 img2.width img2.height

/-- `compare_images`, starting after the `try` block: the two `Except`
arguments are the decode results of the two paths (the first failure wins,
as in the shared `try`), and `resize` stands for PIL's `img1.resize`. -/
def compareImages (resize : Image → Nat → Nat → Image)
    (load1 load2 : Except String Image) : List OutLine :=
  match load1, load2 with
  | .error e, _ => [.errorLoading e]
  | .ok _, .error e => [.errorLoading e]
  | .ok img1, .ok img2 =>
    (if img1.width = img2.width ∧ img1.height = img2.height then []
     else [.sizesDiffer img1.width img1.height img2.width img2.height]) ++
    [.matchResult (formatFixed2
      (matchPercentage (normalizedFirst resize img1 img2).pixels img2.pixels))]

/-- The strings `compare_images` prints to stdout, in order. -/
def compareOutput (resize : Image → Nat → Nat → Image)
    (load1 load2 : Except String Image) : List String :=
  (compareImages resize load1 load2).map renderLine

/-- The usage line of the `__main__` block. -/
def usageMsg : String := "Usage: python compare.py <image1> <image2>"

/-- The `__main__` block: `argv` is the full `sys.argv` (program name
included); the result is the printed lines and the process exit status. -/
def mainModel (decode : String → Except String Image)
    (resize : Image → Nat → Nat → Image) (argv : List String) :
    List String × Nat :=
  if argv.length ≠ 3 then ([usageMsg], 1)
  else (compareOutput resize (decode (argv.getD 1 "")) (decode (argv.getD 2 "")), 0)

/-- A w x h image every pixel of which is `c`. -/
def constImage (w h : Nat) (c : Pixel) : Image :=
  ⟨w, h, List.replicate (w * h) c⟩

/-- All channels 0. -/
def pxBlack : Pixel := ⟨0, 0, 0⟩

/-- All channels 255. -/
def pxWhite : Pixel := ⟨255, 255, 255⟩

/-- A concrete standard resampling filter (nearest neighbour, pixel-centre
sampling), used to witness hypotheses about the external `resize`. -/
def nearestResize (img : Image) (w h : Nat) : Image :=
  ⟨w, h, (List.range (w * h)).map fun i =>
    let x := i % w
    let y := i / w
    let sx := (2 * x + 1) * img.width / (2 * w)
    let sy := (2 * y + 1) * img.height / (2 * h)
    img.pixels.getD (sy * img.width + sx) pxBlack⟩

example : nearestResize (constImage 4 4 pxBlack) 2 2 = constImage 2 2 pxBlack := by decide
example : pixelClose ⟨5, 5, 5⟩ ⟨0, 0, 0⟩ = true := by decide
example : pixelClose ⟨6, 0, 0⟩ ⟨0, 0, 0⟩ = false := by decide

/-! ### Basic lemmas about the pixel-level comparison -/

lemma channelDiff_self (a : Nat) : channelDiff a a = 0 := by
  simp [channelDiff]

lemma channelDiff_comm (a b : Nat) : channelDiff a b = channelDiff b a := by
  unfold channelDiff
  omega

lemma pixelClose_refl (p : Pixel) : pixelClose p p = true := by
  simp [pixelClose, channelDiff_self]

lemma pixelClose_comm (p q : Pixel) : pixelClose p q = pixelClose q p := by
  simp only [pixelClose, channelDiff_comm]

lemma closePixels_self (xs : List Pixel) :
    closePixels xs xs = List.replicate xs.length true := by
  induction xs with
  | nil => rfl
  | cons p xs ih =>
      simp only [closePixels] at ih
      simp [closePixels, List.replicate_succ, pixelClose_refl, ih]

lemma closePixels_comm (xs ys : List Pixel) :
    closePixels xs ys = closePixels ys xs :=
  List.zipWith_comm_of_comm pixelClose pixelClose_comm xs ys

lemma matchPixels_self (xs : List Pixel) : matchPixels xs xs = xs.length := by
  simp [matchPixels, closePixels_self, List.count_replicate_self]

lemma totalPixels_self (xs : List Pixel) : totalPixels xs xs = xs.length := by
  simp [totalPixels, closePixels]

lemma matchPixels_le_totalPixels (xs ys : List Pixel) :
    matchPixels xs ys ≤ totalPixels xs ys :=
  List.count_le_length true (closePixels xs ys)

lemma totalPixels_eq_min (xs ys : List Pixel) :
    totalPixels xs ys = min xs.length ys.length := by
  simp [totalPixels, closePixels, List.length_zipWith]

lemma matchPixels_comm (xs ys : List Pixel) :
    matchPixels xs ys = matchPixels ys xs := by
  unfold matchPixels
  rw [closePixels_comm]

lemma totalPixels_comm (xs ys : List Pixel) :
    totalPixels xs ys = totalPixels ys xs := by
  unfold totalPixels
  rw [closePixels_comm]

lemma matchPercentage_comm (xs ys : List Pixel) :
    matchPercentage xs ys = matchPercentage ys xs := by
  unfold matchPercentage
  rw [matchPixels_comm, totalPixels_comm]

lemma matchPercentage_self (xs : List Pixel) (h : xs ≠ []) :
    matchPercentage xs xs = 100 := by
  unfold matchPercentage
  rw [matchPixels_self, totalPixels_self]
  have h0 : xs.length ≠ 0 := by
    simpa [List.length_eq_zero] using h
  have hne : ((xs.length : ℚ)) ≠ 0 := Nat.cast_ne_zero.mpr h0
  rw [div_self hne, one_mul]

/-! ### Evaluation of the fixed-point formatting on whole-number inputs -/

lemma roundHalfEven_natCast (k : ℕ) : roundHalfEven (k : ℚ) = (k : ℤ) := by
  unfold roundHalfEven
  rw [Rat.num_natCast, Rat.den_natCast]
  simp

lemma formatFixed2_natCast (n : ℕ) :
    formatFixed2 (n : ℚ) = toString n ++ "." ++ String.mk ['0', '0'] := by
  unfold formatFixed2
  have h : ((n : ℚ) * 100) = ((n * 100 : ℕ) : ℚ) := by push_cast; ring
  rw [h, roundHalfEven_natCast, Int.toNat_natCast]
  have h1 : n * 100 / 100 = n := by omega
  have h2 : n * 100 / 10 % 10 = 0 := by omega
  have h3 : n * 100 % 10 = 0 := by omega
  simp only [h1, h2, h3]
  rfl

lemma formatFixed2_100 : formatFixed2 (100 : ℚ) = "100.00" := by
  have h : (100 : ℚ) = ((100 : ℕ) : ℚ) := by norm_num
  rw [h, formatFixed2_natCast]
  rfl

lemma formatFixed2_0 : formatFixed2 (0 : ℚ) = "0.00" := by
  have h : (0 : ℚ) = ((0 : ℕ) : ℚ) := by norm_num
  rw [h, formatFixed2_natCast]
  rfl

/-! ### Lemmas about the whole comparison pipeline -/

lemma nearestResize_length (img : Image) (w h : Nat) :
    ((nearestResize img w h).pixels).length = w * h := by
  simp [nearestResize]

lemma normalizedFirst_length (resize : Image → Nat → Nat → Image)
    (i1 i2 : Image)
    (hres : ∀ img w h, ((resize img w h).pixels).length = w * h)
    (h1 : i1.wf) :
    ((normalizedFirst resize i1 i2).pixels).length = i2.width * i2.height := by
  by_cases hc : i1.width = i2.width ∧ i1.height = i2.height
  · simp only [normalizedFirst, if_pos hc]
    rw [h1, hc.1, hc.2]
  · simp only [normalizedFirst, if_neg hc]
    exact hres i1 i2.width i2.height

lemma totalPixels_of_lengths (xs ys : List Pixel) (t : ℕ)
    (hx : xs.length = t) (hy : ys.length = t) : totalPixels xs ys = t := by
  simp [totalPixels_eq_min, hx, hy]

lemma matchPercentage_formula (xs ys : List Pixel) (t : ℕ)
    (h : totalPixels xs ys = t) :
    matchPercentage xs ys = 100 * (matchPixels xs ys : ℚ) / (t : ℚ) := by
  unfold matchPercentage
  rw [h]
  ring

lemma matchPercentage_nonneg (xs ys : List Pixel) : 0 ≤ matchPercentage xs ys := by
  unfold matchPercentage
  positivity

lemma matchPercentage_le_100 (xs ys : List Pixel)
    (h : 0 < totalPixels xs ys) : matchPercentage xs ys ≤ 100 := by
  unfold matchPercentage
  have hm : (matchPixels xs ys : ℚ) ≤ (totalPixels xs ys : ℚ) := by
    exact_mod_cast matchPixels_le_totalPixels xs ys
  have ht : (0 : ℚ) < (totalPixels xs ys : ℚ) := by exact_mod_cast h
  have hdiv : (matchPixels xs ys : ℚ) / (totalPixels xs ys : ℚ) ≤ 1 := by
    rw [div_le_one ht]
    exact hm
  calc (matchPixels xs ys : ℚ) / (totalPixels xs ys : ℚ) * 100
      ≤ 1 * 100 := by
        exact mul_le_mul_of_nonneg_right hdiv (by norm_num)
    _ = 100 := by norm_num

lemma closePixels_replicate (n : ℕ) (p q : Pixel) :
    closePixels (List.replicate n p) (List.replicate n q) =
      List.replicate n (pixelClose p q) := by
  induction n with
  | zero => rfl
  | succ n ih =>
      simp only [closePixels] at ih
      simp [closePixels, List.replicate_succ, ih]

lemma matchPixels_black_white (n : ℕ) :
    matchPixels (List.replicate n pxBlack) (List.replicate n pxWhite) = 0 := by
  have hbw : pixelClose pxBlack pxWhite = false := by decide
  rw [matchPixels, closePixels_replicate, hbw]
  refine List.count_eq_zero.mpr ?_
  simp [List.mem_replicate]

lemma matchPercentage_black_white (n : ℕ) :
    matchPercentage (List.replicate n pxBlack) (List.replicate n pxWhite) = 0 := by
  unfold matchPercentage
  rw [matchPixels_black_white]
  simp

lemma compareImages_ok_ok (resize : Image → Nat → Nat → Image) (i1 i2 : Image) :
    compareImages resize (.ok i1) (.ok i2) =
      (if i1.width = i2.width ∧ i1.height = i2.height then []
       else [.sizesDiffer i1.width i1.height i2.width i2.height]) ++
      [.matchResult (formatFixed2
        (matchPercentage (normalizedFirst resize i1 i2).pixels i2.pixels))] := rfl

lemma compareImages_eq_sizes (resize : Image → Nat → Nat → Image) (i1 i2 : Image)
    (h : i1.width = i2.width ∧ i1.height = i2.height) :
    compareImages resize (.ok i1) (.ok i2) =
      [.matchResult (formatFixed2 (matchPercentage i1.pixels i2.pixels))] := by
  rw [compareImages_ok_ok, if_pos h]
  simp [normalizedFirst, if_pos h]

lemma compareImages_ne_sizes (resize : Image → Nat → Nat → Image) (i1 i2 : Image)
    (h : ¬ (i1.width = i2.width ∧ i1.height = i2.height)) :
    compareImages resize (.ok i1) (.ok i2) =
      [.sizesDiffer i1.width i1.height i2.width i2.height,
       .matchResult (formatFixed2
         (matchPercentage (resize i1 i2.width i2.height).pixels i2.pixels))] := by
  rw [compareImages_ok_ok, if_neg h]
  simp [normalizedFirst, if_neg h]

/-! ### Claim theorems -/

/-- C1: a pixel is counted as matching iff all three per-channel absolute
differences are at most 5; per-channel differences of exactly 5 still
match, while a difference of 6 in any single channel rules the pixel out. -/
theorem pixel_matching_iff_three_diffs_le_five (p q : Pixel) :
    (pixelClose p q = true ↔
      channelDiff p.r q.r ≤ 5 ∧ channelDiff p.g q.g ≤ 5 ∧ channelDiff p.b q.b ≤ 5)
    ∧ pixelClose ⟨5, 5, 5⟩ ⟨0, 0, 0⟩ = true
    ∧ (∀ p' q' : Pixel, channelDiff p'.r q'.r = 6 → pixelClose p' q' = false)
    ∧ (∀ p' q' : Pixel, channelDiff p'.g q'.g = 6 → pixelClose p' q' = false)
    ∧ (∀ p' q' : Pixel, channelDiff p'.b q'.b = 6 → pixelClose p' q' = false) := by
  refine ⟨?_, by decide, ?_, ?_, ?_⟩
  · simp [pixelClose, tolerance, and_assoc]
  · intro p' q' h
    simp [pixelClose, tolerance, h]
  · intro p' q' h
    simp [pixelClose, tolerance, h]
  · intro p' q' h
    simp [pixelClose, tolerance, h]

theorem pixel_matching_iff_three_diffs_le_five_witness :
    pixelClose ⟨0, 0, 6⟩ ⟨0, 0, 0⟩ = false :=
  (pixel_matching_iff_three_diffs_le_five ⟨0, 0, 0⟩ ⟨0, 0, 0⟩).2.2.2.2
    ⟨0, 0, 6⟩ ⟨0, 0, 0⟩ (by decide)

/-- C2: on two successfully decoded (and, if needed, resized) images the
reported value is `100 * matching / (width * height)` of the normalized
pair, printed as the unique `Match: ...%` line whose percentage carries
exactly two digits after the decimal point. -/
theorem reported_result_formula_and_format (resize : Image → Nat → Nat → Image)
    (i1 i2 : Image)
    (hres : ∀ img w h, ((resize img w h).pixels).length = w * h)
    (h1 : i1.wf) (h2 : i2.wf) :
    ∃ d : List OutLine,
      compareImages resize (.ok i1) (.ok i2) =
        d ++ [.matchResult (formatFixed2
          (100 * (matchPixels (normalizedFirst resize i1 i2).pixels i2.pixels : ℚ) /
            ((i2.width * i2.height : ℕ) : ℚ)))]
      ∧ (∀ s, OutLine.matchResult s ∉ d)
      ∧ (∀ s, renderLine (OutLine.matchResult s) = "Match: " ++ s ++ "%")
      ∧ (∀ q : ℚ, ∃ a c1 c2, formatFixed2 q = a ++ "." ++ String.mk [c1, c2]
          ∧ (String.mk [c1, c2]).length = 2) := by
  have ht : totalPixels (normalizedFirst resize i1 i2).pixels i2.pixels
      = i2.width * i2.height :=
    totalPixels_of_lengths _ _ _ (normalizedFirst_length resize i1 i2 hres h1) h2
  have hp := matchPercentage_formula (normalizedFirst resize i1 i2).pixels i2.pixels _ ht
  refine ⟨if i1.width = i2.width ∧ i1.height = i2.height then []
          else [.sizesDiffer i1.width i1.height i2.width i2.height], ?_, ?_, ?_, ?_⟩
  · rw [compareImages_ok_ok, hp]
  · intro s
    by_cases hc : i1.width = i2.width ∧ i1.height = i2.height <;> simp [hc]
  · intro s
    rfl
  · intro q
    exact ⟨_, _, _, rfl, rfl⟩

theorem reported_result_formula_and_format_witness :
    ∃ d : List OutLine,
      compareImages nearestResize (.ok (constImage 1 1 pxBlack)) (.ok (constImage 1 1 pxBlack)) =
        d ++ [.matchResult (formatFixed2
          (100 * (matchPixels
              (normalizedFirst nearestResize (constImage 1 1 pxBlack) (constImage 1 1 pxBlack)).pixels
              (constImage 1 1 pxBlack).pixels : ℚ) /
            (((constImage 1 1 pxBlack).width * (constImage 1 1 pxBlack).height : ℕ) : ℚ)))]
      ∧ (∀ s, OutLine.matchResult s ∉ d)
      ∧ (∀ s, renderLine (OutLine.matchResult s) = "Match: " ++ s ++ "%")
      ∧ (∀ q : ℚ, ∃ a c1 c2, formatFixed2 q = a ++ "." ++ String.mk [c1, c2]
          ∧ (String.mk [c1, c2]).length = 2) :=
  reported_result_formula_and_format nearestResize (constImage 1 1 pxBlack)
    (constImage 1 1 pxBlack) nearestResize_length rfl rfl

/-- C3: when the decoded dimensions differ, the first image (never the
second) is resampled to the second image's width and height, a diagnostic
naming both sizes precedes the result, and the 4x4 versus 2x2 all-black
comparison prints the diagnostic followed by `Match: 100.00%`. -/
theorem size_mismatch_resizes_first (resize : Image → Nat → Nat → Image)
    (i1 i2 : Image)
    (hne : ¬ (i1.width = i2.width ∧ i1.height = i2.height))
    (hblack : resize (constImage 4 4 pxBlack) 2 2 = constImage 2 2 pxBlack) :
    compareImages resize (.ok i1) (.ok i2) =
      [.sizesDiffer i1.width i1.height i2.width i2.height,
       .matchResult (formatFixed2
         (matchPercentage (resize i1 i2.width i2.height).pixels i2.pixels))]
    ∧ compareOutput resize (.ok (constImage 4 4 pxBlack)) (.ok (constImage 2 2 pxBlack)) =
      ["Sizes differ: (4, 4) vs (2, 2). Resizing img1 to match img2.",
       "Match: 100.00%"] := by
  constructor
  · exact compareImages_ne_sizes resize i1 i2 hne
  · have hne2 : ¬ ((constImage 4 4 pxBlack).width = (constImage 2 2 pxBlack).width ∧
        (constImage 4 4 pxBlack).height = (constImage 2 2 pxBlack).height) := by decide
    have h100 : matchPercentage (constImage 2 2 pxBlack).pixels
        (constImage 2 2 pxBlack).pixels = 100 :=
      matchPercentage_self _ (by decide)
    have hbl : resize (constImage 4 4 pxBlack) (constImage 2 2 pxBlack).width
        (constImage 2 2 pxBlack).height = constImage 2 2 pxBlack := hblack
    rw [compareOutput, compareImages_ne_sizes _ _ _ hne2, hbl, h100, formatFixed2_100]
    rfl

theorem size_mismatch_resizes_first_witness :
    compareOutput nearestResize (.ok (constImage 4 4 pxBlack)) (.ok (constImage 2 2 pxBlack)) =
      ["Sizes differ: (4, 4) vs (2, 2). Resizing img1 to match img2.",
       "Match: 100.00%"] :=
  (size_mismatch_resizes_first nearestResize (constImage 4 4 pxBlack)
    (constImage 2 2 pxBlack) (by decide) (by decide)).2

/-- C4: when either decode fails, a single `Error loading images: ...` line
is printed, no percentage line appears and the computation is never
reached; every invocation of the core either fails this way or ends in a
match line. -/
theorem load_failure_no_result (resize : Image → Nat → Nat → Image)
    (e : String) (l : Except String Image) (i1 : Image) :
    compareImages resize (.error e) l = [.errorLoading e]
    ∧ compareImages resize (.ok i1) (.error e) = [.errorLoading e]
    ∧ renderLine (.errorLoading e) = "Error loading images: " ++ e
    ∧ (∀ s, OutLine.matchResult s ∉ compareImages resize (.error e) l)
    ∧ (∀ s, OutLine.matchResult s ∉ compareImages resize (.ok i1) (.error e))
    ∧ (∀ l1 l2 : Except String Image,
        (∃ e', compareImages resize l1 l2 = [.errorLoading e'])
        ∨ (∃ d s, compareImages resize l1 l2 = d ++ [.matchResult s])) := by
  have he1 : compareImages resize (.error e) l = [.errorLoading e] := by
    cases l <;> rfl
  have he2 : compareImages resize (.ok i1) (.error e) = [.errorLoading e] := rfl
  refine ⟨he1, he2, rfl, ?_, ?_, ?_⟩
  · intro s
    rw [he1]
    simp
  · intro s
    rw [he2]
    simp
  · intro l1 l2
    cases l1 with
    | error e' => exact Or.inl ⟨e', by cases l2 <;> rfl⟩
    | ok a =>
      cases l2 with
      | error e' => exact Or.inl ⟨e', rfl⟩
      | ok b => exact Or.inr ⟨_, _, rfl⟩

theorem load_failure_no_result_witness :
    compareImages nearestResize (.error "file not found") (.error "x") =
      [.errorLoading "file not found"] :=
  (load_failure_no_result nearestResize "file not found" (.error "x")
    (constImage 1 1 pxBlack)).1

/-- C5: comparing any nonempty image with itself computes exactly the
percentage 100 and prints exactly `Match: 100.00%`. -/
theorem self_comparison_yields_100 (resize : Image → Nat → Nat → Image)
    (img : Image) (h : img.pixels ≠ []) :
    matchPercentage img.pixels img.pixels = 100
    ∧ compareImages resize (.ok img) (.ok img) = [.matchResult "100.00"]
    ∧ compareOutput resize (.ok img) (.ok img) = ["Match: 100.00%"] := by
  have hp := matchPercentage_self img.pixels h
  have hc : compareImages resize (.ok img) (.ok img) = [.matchResult "100.00"] := by
    rw [compareImages_eq_sizes resize img img ⟨rfl, rfl⟩, hp, formatFixed2_100]
  refine ⟨hp, hc, ?_⟩
  rw [compareOutput, hc]
  rfl

theorem self_comparison_yields_100_witness :
    (constImage 1 1 pxBlack).pixels ≠ [] ∧
    compareOutput nearestResize (.ok (constImage 1 1 pxBlack))
      (.ok (constImage 1 1 pxBlack)) = ["Match: 100.00%"] :=
  ⟨by decide,
   (self_comparison_yields_100 nearestResize (constImage 1 1 pxBlack) (by decide)).2.2⟩

/-- C6: when the two decoded images have the same width and height the
resize step is skipped and swapping the arguments leaves the entire output
unchanged. -/
theorem equal_dims_swap_symmetric (resize : Image → Nat → Nat → Image)
    (a b : Image) (hw : a.width = b.width) (hh : a.height = b.height) :
    compareImages resize (.ok a) (.ok b) = compareImages resize (.ok b) (.ok a) := by
  rw [compareImages_eq_sizes resize a b ⟨hw, hh⟩,
      compareImages_eq_sizes resize b a ⟨hw.symm, hh.symm⟩,
      matchPercentage_comm]

theorem equal_dims_swap_symmetric_witness :
    compareImages nearestResize (.ok ⟨1, 1, [⟨0, 0, 0⟩]⟩) (.ok ⟨1, 1, [⟨9, 0, 0⟩]⟩) =
      compareImages nearestResize (.ok ⟨1, 1, [⟨9, 0, 0⟩]⟩) (.ok ⟨1, 1, [⟨0, 0, 0⟩]⟩) :=
  equal_dims_swap_symmetric nearestResize ⟨1, 1, [⟨0, 0, 0⟩]⟩ ⟨1, 1, [⟨9, 0, 0⟩]⟩ rfl rfl

/-- C7: each per-channel difference is the absolute value of a signed
integer subtraction, equals the distance between the two channel values
(no unsigned wraparound), and lies in `[0, 255]` for 8-bit channels. -/
theorem channel_diff_signed_in_range (a b : Nat) (ha : a ≤ 255) (hb : b ≤ 255) :
    channelDiff a b = ((a : Int) - (b : Int)).natAbs
    ∧ channelDiff a b = max a b - min a b
    ∧ channelDiff a b ≤ 255 := by
  refine ⟨rfl, ?_, ?_⟩ <;> unfold channelDiff <;> omega

theorem channel_diff_signed_in_range_witness :
    (0 : Nat) ≤ 255 ∧ channelDiff 0 255 = max 0 255 - min 0 255 ∧ channelDiff 0 255 ≤ 255 :=
  ⟨by decide, (channel_diff_signed_in_range 0 255 (by decide) (by decide)).2.1,
   (channel_diff_signed_in_range 0 255 (by decide) (by decide)).2.2⟩

/-- C8: for well-formed decoded images the computed percentage lies in the
closed interval `[0, 100]`. -/
theorem result_percentage_in_0_100 (resize : Image → Nat → Nat → Image)
    (i1 i2 : Image)
    (hres : ∀ img w h, ((resize img w h).pixels).length = w * h)
    (h1 : i1.wf) (h2 : i2.wf) (hpos : 0 < i2.width * i2.height) :
    0 ≤ matchPercentage (normalizedFirst resize i1 i2).pixels i2.pixels
    ∧ matchPercentage (normalizedFirst resize i1 i2).pixels i2.pixels ≤ 100 := by
  have ht : totalPixels (normalizedFirst resize i1 i2).pixels i2.pixels
      = i2.width * i2.height :=
    totalPixels_of_lengths _ _ _ (normalizedFirst_length resize i1 i2 hres h1) h2
  refine ⟨matchPercentage_nonneg _ _, matchPercentage_le_100 _ _ ?_⟩
  rw [ht]
  exact hpos

theorem result_percentage_in_0_100_witness :
    0 ≤ matchPercentage
        (normalizedFirst nearestResize (constImage 1 1 pxBlack) (constImage 1 1 pxWhite)).pixels
        (constImage 1 1 pxWhite).pixels
    ∧ matchPercentage
        (normalizedFirst nearestResize (constImage 1 1 pxBlack) (constImage 1 1 pxWhite)).pixels
        (constImage 1 1 pxWhite).pixels ≤ 100 :=
  result_percentage_in_0_100 nearestResize (constImage 1 1 pxBlack)
    (constImage 1 1 pxWhite) nearestResize_length rfl rfl (by decide)

/-- C9: an all-black and an all-white image of the same nonempty size match
on no pixel: the percentage is 0 and the script prints `Match: 0.00%`. -/
theorem black_white_zero_percent (resize : Image → Nat → Nat → Image)
    (w h : Nat) (_hpos : 0 < w * h) :
    matchPercentage (constImage w h pxBlack).pixels (constImage w h pxWhite).pixels = 0
    ∧ compareOutput resize (.ok (constImage w h pxBlack)) (.ok (constImage w h pxWhite)) =
      ["Match: 0.00%"] := by
  have hp : matchPercentage (constImage w h pxBlack).pixels
      (constImage w h pxWhite).pixels = 0 := matchPercentage_black_white (w * h)
  refine ⟨hp, ?_⟩
  rw [compareOutput,
    compareImages_eq_sizes resize (constImage w h pxBlack) (constImage w h pxWhite)
      ⟨rfl, rfl⟩, hp, formatFixed2_0]
  rfl

theorem black_white_zero_percent_witness :
    0 < 2 * 2 ∧
    compareOutput nearestResize (.ok (constImage 2 2 pxBlack))
      (.ok (constImage 2 2 pxWhite)) = ["Match: 0.00%"] :=
  ⟨by decide, (black_white_zero_percent nearestResize 2 2 (by decide)).2⟩

/-- C10: called with any argument count other than exactly two paths (three
entries of `sys.argv`), the program prints only the usage line, exits with
the non-zero status 1, and never consults the decoder or the resampler. -/
theorem wrong_arg_count_usage (decode decode' : String → Except String Image)
    (resize resize' : Image → Nat → Nat → Image)
    (argv : List String) (h : argv.length ≠ 3) :
    mainModel decode resize argv = ([usageMsg], 1)
    ∧ (mainModel decode resize argv).2 ≠ 0
    ∧ mainModel decode resize argv = mainModel decode' resize' argv := by
  have h1 : mainModel decode resize argv = ([usageMsg], 1) := by
    rw [mainModel, if_pos h]
  have h2 : mainModel decode' resize' argv = ([usageMsg], 1) := by
    rw [mainModel, if_pos h]
  refine ⟨h1, ?_, h1.trans h2.symm⟩
  rw [h1]
  decide

theorem wrong_arg_count_usage_witness :
    ([("compare.py" : String)].length ≠ 3) ∧
    mainModel (fun _ => .error "e") nearestResize ["compare.py"] = ([usageMsg], 1) :=
  ⟨by decide,
   (wrong_arg_count_usage (fun _ => .error "e") (fun _ => .ok (constImage 1 1 pxBlack))
     nearestResize nearestResize ["compare.py"] (by decide)).1⟩

end Compare
